import Mathlib

/-
Verification of the dvmn signal-monitoring library (src/src/lib.rs).

Shallow embedding conventions:
  * the Rust scalar `f64` is modelled by `ℚ` (the spec treats the scalar as an
    ordered field; all comparisons and exact arithmetic used by the code are
    faithful over `ℚ`, with the caveat that `ℚ` division by zero yields 0 where
    `f64` yields a non-finite value — noted where it matters);
  * Rust's `Display`/`Debug` rendering of the scalar is an explicit parameter
    `fmt : ℚ → String`, so error-message formats are stated exactly;
  * `std::time::Instant` is modelled as an abstract `Nat` tick; `Instant::now()`
    becomes an explicit `now : Nat` argument;
  * fallible constructors return `Except String _` mirroring `Result<_, String>`;
  * `Monitor::validate` takes `&mut self` in the source, so it is embedded in
    state-passing style returning the post-state together with the result.
-/

namespace Dvmn

/-- Embeds `enum Deviation` (lib.rs lines 5-9). -/
inductive Deviation
  | Low : ℚ → Deviation
  | High : ℚ → Deviation
deriving DecidableEq

/-- Embeds `enum State` (lib.rs lines 11-16). -/
inductive State
  | Nominal : ℚ → State
  | Alert : ℚ → Deviation → State
  | Error : ℚ → Deviation → State
deriving DecidableEq

/-- Embeds `struct Range` (lib.rs lines 18-22). -/
structure Range where
  min : ℚ
  max : ℚ
deriving DecidableEq

/-- Embeds `Range::new` (lib.rs lines 25-33): the match on `min <= max`
returns the Range on `true` and the formatted error on `false`. -/
def Range.new (fmt : ℚ → String) (mn mx : ℚ) : Except String Range :=
  if mn ≤ mx then Except.ok ⟨mn, mx⟩
  else Except.error
    ("invalid range: min:=" ++ fmt mn ++ ", max:=" ++ fmt mx ++
      ", min <= max is false!")

/-- Embeds `Range::contains` (lib.rs lines 35-37). -/
def Range.contains (self other : Range) : Bool :=
  decide (self.min ≤ other.min) && decide (other.max ≤ self.max)

/-- Embeds `Range.deviation` (lib.rs lines 39-47): early return on `x < min`,
then on `x > max`, else `None`. -/
def Range.deviation (self : Range) (x : ℚ) : Option ℚ :=
  if x < self.min then some (x - self.min)
  else if x > self.max then some (x - self.max)
  else none

/-- Embeds `Range::size` (lib.rs lines 49-51). -/
def Range.size (self : Range) : ℚ :=
  self.max - self.min

/-- Embeds `struct Sample` (lib.rs lines 54-58); `time: Instant` becomes an
abstract tick. -/
structure Sample where
  value : ℚ
  time : Nat
deriving DecidableEq

/-- Embeds `Sample::new` (lib.rs lines 60-67): `value = x as f64` with
`x : usize` becomes the cast `Nat → ℚ`; `Instant::now()` is the explicit
`now` argument. -/
def Sample.new (x : Nat) (now : Nat) : Sample :=
  ⟨(x : ℚ), now⟩

/-- Embeds `struct Monitor` (lib.rs lines 69-74). -/
structure Monitor where
  domain : Range
  destination : Range
  nominal : Range
deriving DecidableEq

/-- Rust `Debug` rendering of a Range, as produced by `{:?}` in the
`Monitor::new` error message (the test at lib.rs line 196 fixes the exact
shape). -/
def rangeDebug (fmt : ℚ → String) (r : Range) : String :=
  "Range \x7b min: " ++ fmt r.min ++ ", max: " ++ fmt r.max ++ " \x7d"

/-- Embeds `Monitor::new` (lib.rs lines 77-94): early error return when
`destination.contains(nominal)` is false, else the Monitor with the three
Ranges unchanged. -/
def Monitor.new (fmt : ℚ → String) (domain destination nominal : Range) :
    Except String Monitor :=
  if destination.contains nominal then Except.ok ⟨domain, destination, nominal⟩
  else Except.error
    ("values nominal:=" ++ rangeDebug fmt nominal ++
      " is not contained in values:=" ++ rangeDebug fmt destination)

/-- Embeds `Monitor::f` (lib.rs lines 96-98):
`destination.min + (x * (destination.size() / domain.size()))`.
Note the source does NOT subtract `domain.min` from `x`. -/
def Monitor.f (self : Monitor) (x : ℚ) : ℚ :=
  self.destination.min + (x * (self.destination.size / self.domain.size))

/-- Embeds `Monitor::validate` (lib.rs lines 100-108). The source maps both
sample values and then unconditionally returns `State::Nominal(current_value)`;
the classification logic is a stub (the body holds only the comment
`//if current`). `&mut self` is embedded by returning the post-state, which
the body never modifies. -/
def Monitor.validate (self : Monitor) (current previous : Sample) :
    Monitor × State :=
  let current_value := self.f current.value
  let previous_value := self.f previous.value
  (self, State.Nominal current_value)

/-- Follows the spec words for `map` (spec section 4.3), for refinement
comparison with `Monitor.f`:
`y = destination.min + (x - domain.min) * (destination.size() / domain.size())`. -/
def specMap (m : Monitor) (x : ℚ) : ℚ :=
  m.destination.min + (x - m.domain.min) * (m.destination.size / m.domain.size)

/-- Follows the spec words for `classify` (spec section 4.3 steps 1-4), for
comparison with the stubbed `Monitor.validate`: Nominal inside nominal,
Alert on a new or sign-flipped excursion, Error on a sustained same-side
excursion, tag Low for negative deviation and High for positive. -/
def specClassify (m : Monitor) (current previous : Sample) : State :=
  let mc := m.f current.value
  match m.nominal.deviation mc with
  | none => State.Nominal mc
  | some dev =>
    match m.nominal.deviation (m.f previous.value) with
    | none =>
      if dev < 0 then State.Alert mc (Deviation.Low dev)
      else State.Alert mc (Deviation.High dev)
    | some pdev =>
      if (dev < 0 ∧ pdev < 0) ∨ (0 < dev ∧ 0 < pdev) then
        if dev < 0 then State.Error mc (Deviation.Low dev)
        else State.Error mc (Deviation.High dev)
      else
        if dev < 0 then State.Alert mc (Deviation.Low dev)
        else State.Alert mc (Deviation.High dev)

/-- Concrete scalar renderer used by witnesses (stands in for the abstract
`fmt` parameter; any renderer works). -/
def fmt0 : ℚ → String :=
  fun q => toString q.num ++ "/" ++ toString q.den

/-- The demo Monitor of the spec scenarios: domain [0,256],
destination [0,1], nominal [0.2,0.7]. -/
def mDemo : Monitor :=
  ⟨⟨0, 256⟩, ⟨0, 1⟩, ⟨1/5, 7/10⟩⟩

/-- A Monitor with `domain.min ≠ 0`: domain [1,3], destination [0,1],
nominal [0,1] (validly constructible: 1 ≤ 3, 0 ≤ 1, destination contains
nominal). -/
def mC2 : Monitor :=
  ⟨⟨1, 3⟩, ⟨0, 1⟩, ⟨0, 1⟩⟩

/-- A Monitor with a degenerate domain [5,5] (spec section 8 scenario). -/
def mDeg : Monitor :=
  ⟨⟨5, 5⟩, ⟨0, 1⟩, ⟨0, 1⟩⟩

/-- C1: the spec's classification algorithm (new excursion → Alert, sustained
same-side excursion → Error, sign flip → Alert) is the intended behaviour, but
the source's `Monitor::validate` stubs it out and returns `Nominal` for every
input. At the failing input (demo Monitor, current sample 230, previous 128)
the mapped current value 115/128 deviates High by 127/640, the spec algorithm
yields `Alert(115/128, High(127/640))`, yet the code returns
`Nominal(115/128)`. -/
theorem c1_classify_stubbed :
    (Dvmn.Monitor.validate Dvmn.mDemo ⟨230, 0⟩ ⟨128, 1⟩).2
      = Dvmn.State.Nominal (115/128) ∧
    Dvmn.mDemo.nominal.deviation (Dvmn.mDemo.f 230) = some (127/640) ∧
    Dvmn.specClassify Dvmn.mDemo ⟨230, 0⟩ ⟨128, 1⟩
      = Dvmn.State.Alert (115/128) (Dvmn.Deviation.High (127/640)) ∧
    (Dvmn.Monitor.validate Dvmn.mDemo ⟨230, 0⟩ ⟨128, 1⟩).2
      ≠ Dvmn.specClassify Dvmn.mDemo ⟨230, 0⟩ ⟨128, 1⟩ := by
  have hf : Dvmn.Monitor.f Dvmn.mDemo 230 = 115/128 := by
    norm_num [Dvmn.Monitor.f, Dvmn.Range.size, Dvmn.mDemo]
  have hdev : Dvmn.mDemo.nominal.deviation (115/128 : ℚ) = some (127/640) := by
    norm_num [Dvmn.Range.deviation, Dvmn.mDemo]
  have hprev : Dvmn.mDemo.nominal.deviation (Dvmn.Monitor.f Dvmn.mDemo 128)
      = none := by
    norm_num [Dvmn.Range.deviation, Dvmn.Monitor.f, Dvmn.Range.size, Dvmn.mDemo]
  have hspec : Dvmn.specClassify Dvmn.mDemo ⟨230, 0⟩ ⟨128, 1⟩
      = Dvmn.State.Alert (115/128) (Dvmn.Deviation.High (127/640)) := by
    simp only [Dvmn.specClassify, Dvmn.Sample.value, hf, hdev, hprev]
    norm_num
  refine ⟨?_, hf ▸ hdev, hspec, ?_⟩
  · show Dvmn.State.Nominal (Dvmn.Monitor.f Dvmn.mDemo 230)
      = Dvmn.State.Nominal (115/128)
    rw [hf]
  · show Dvmn.State.Nominal (Dvmn.Monitor.f Dvmn.mDemo 230) ≠ _
    rw [hf, hspec]
    simp

/-- C2 counterexample: the claim says `map(x)` returns
`destination.min + (x - domain.min) * (destination.size() / domain.size())`,
but the source's `Monitor::f` does not subtract `domain.min`. On the valid
Monitor mC2 (domain [1,3], destination [0,1]) at x = 1 the code returns 1/2
while the spec formula gives 0. -/
theorem c2_map_counterexample :
    Dvmn.Monitor.f Dvmn.mC2 1 ≠ Dvmn.specMap Dvmn.mC2 1 := by
  norm_num [Dvmn.Monitor.f, Dvmn.specMap, Dvmn.Range.size, Dvmn.mC2]

/-- C2 amended: `Monitor::f` computes
`destination.min + x * (destination.size() / domain.size())` (the
`- domain.min` term of the spec formula is absent); it agrees with the spec
formula exactly for Monitors whose `domain.min = 0`. -/
theorem c2_map_formula (m : Dvmn.Monitor) (x : ℚ) :
    Dvmn.Monitor.f m x
      = m.destination.min + x * (m.destination.size / m.domain.size) ∧
    (m.domain.min = 0 → Dvmn.Monitor.f m x = Dvmn.specMap m x) := by
  refine ⟨rfl, fun h => ?_⟩
  simp [Dvmn.Monitor.f, Dvmn.specMap, h]

/-- C2 witness: the amended formula instantiated at the demo Monitor
(domain.min = 0) and x = 128. -/
theorem c2_map_formula_witness :
    Dvmn.mDemo.domain.min = 0 ∧
    Dvmn.Monitor.f Dvmn.mDemo 128 = Dvmn.specMap Dvmn.mDemo 128 :=
  ⟨rfl, (c2_map_formula Dvmn.mDemo 128).2 rfl⟩

/-- C3: the claim requires `map` to fail with a typed `DegenerateDomain`
error when `domain.size() == 0`, but `Monitor::f` has no error channel at
all — it performs the division unconditionally and returns a bare scalar.
This theorem evaluates the code at the failing input (mDeg has domain [5,5],
size 0; x = 3): in this `ℚ` embedding division by zero yields 0 so the call
returns `destination.min`; in the Rust `f64` source the same call yields
`+inf`. Either way there is no typed failure. -/
theorem c3_degenerate_domain_no_error :
    Dvmn.mDeg.domain.size = 0 ∧
    Dvmn.Monitor.f Dvmn.mDeg 3 = Dvmn.mDeg.destination.min := by
  refine ⟨?_, ?_⟩ <;>
    norm_num [Dvmn.Monitor.f, Dvmn.Range.size, Dvmn.mDeg]

/-- C4: whenever the mapped current value lies inside the nominal Range
(`nominal.deviation` of it is `none`), `validate` returns
`Nominal(mapped_current)`. This holds on the source (which returns Nominal
unconditionally). -/
theorem c4_nominal_inside (m : Dvmn.Monitor) (c p : Dvmn.Sample)
    (h : m.nominal.deviation (m.f c.value) = none) :
    (Dvmn.Monitor.validate m c p).2 = Dvmn.State.Nominal (m.f c.value) :=
  rfl

/-- C4 witness: the spec scenario — demo Monitor, two consecutive samples of
value 128 map to 1/2, inside nominal [0.2,0.7], and classification yields
`Nominal(1/2)`. -/
theorem c4_nominal_inside_witness :
    Dvmn.mDemo.nominal.deviation (Dvmn.mDemo.f (128 : ℚ)) = none ∧
    Dvmn.Monitor.f Dvmn.mDemo 128 = 1/2 ∧
    (Dvmn.Monitor.validate Dvmn.mDemo ⟨128, 0⟩ ⟨128, 1⟩).2
      = Dvmn.State.Nominal (Dvmn.Monitor.f Dvmn.mDemo
          (Dvmn.Sample.mk 128 0).value) := by
  have hd : Dvmn.mDemo.nominal.deviation (Dvmn.Monitor.f Dvmn.mDemo (128 : ℚ))
      = none := by
    norm_num [Dvmn.Range.deviation, Dvmn.Monitor.f, Dvmn.Range.size, Dvmn.mDemo]
  refine ⟨hd, ?_, c4_nominal_inside Dvmn.mDemo ⟨128, 0⟩ ⟨128, 1⟩ hd⟩
  norm_num [Dvmn.Monitor.f, Dvmn.Range.size, Dvmn.mDemo]

/-- C5: for a valid Range [mn, mx], `deviation(x)` is `some (x - mn)` (a
negative magnitude) when `x < mn`, `some (x - mx)` (a positive magnitude)
when `x > mx`, `none` when `mn ≤ x ≤ mx`, and the two out-of-bounds branches
are mutually exclusive. -/
theorem c5_deviation_cases (mn mx x : ℚ) (h : mn ≤ mx) :
    (x < mn → Dvmn.Range.deviation ⟨mn, mx⟩ x = some (x - mn) ∧ x - mn < 0) ∧
    (mx < x → Dvmn.Range.deviation ⟨mn, mx⟩ x = some (x - mx) ∧ 0 < x - mx) ∧
    (mn ≤ x ∧ x ≤ mx → Dvmn.Range.deviation ⟨mn, mx⟩ x = none) ∧
    ¬(x < mn ∧ mx < x) := by
  refine ⟨fun hx => ⟨?_, by linarith⟩, fun hx => ⟨?_, by linarith⟩,
    fun hx => ?_, fun hx => by linarith [hx.1, hx.2]⟩
  · simp [Dvmn.Range.deviation, hx]
  · have hnot : ¬ x < mn := by linarith
    simp [Dvmn.Range.deviation, hnot, hx]
  · have h1 : ¬ x < mn := not_lt.mpr hx.1
    have h2 : ¬ mx < x := not_lt.mpr hx.2
    simp [Dvmn.Range.deviation, h1, h2]

/-- C5 witness: the spec examples on Range [0,1] — deviation(-0.1) is
Some(-0.1), deviation(1.1) is Some(0.1), deviation(0.5) is None. -/
theorem c5_deviation_witness :
    Dvmn.Range.deviation ⟨0, 1⟩ (-1/10) = some (-1/10 - 0) ∧
    Dvmn.Range.deviation ⟨0, 1⟩ (11/10) = some (11/10 - 1) ∧
    Dvmn.Range.deviation ⟨0, 1⟩ (1/2) = none :=
  ⟨((c5_deviation_cases 0 1 (-1/10) (by norm_num)).1 (by norm_num)).1,
    ((c5_deviation_cases 0 1 (11/10) (by norm_num)).2.1 (by norm_num)).1,
    (c5_deviation_cases 0 1 (1/2) (by norm_num)).2.2.1
      ⟨by norm_num, by norm_num⟩⟩

/-- C6: `Monitor::new` errors exactly when `destination.contains(nominal)` is
false, with a message embedding the Debug rendering (hence both bounds) of
the nominal and destination Ranges; otherwise it returns the Monitor holding
the three given Ranges unchanged. -/
theorem c6_monitor_new (fmt : ℚ → String) (d dst nom : Dvmn.Range) :
    (dst.contains nom = true →
      Dvmn.Monitor.new fmt d dst nom = Except.ok ⟨d, dst, nom⟩) ∧
    (dst.contains nom = false →
      Dvmn.Monitor.new fmt d dst nom = Except.error
        ("values nominal:=" ++ Dvmn.rangeDebug fmt nom ++
          " is not contained in values:=" ++ Dvmn.rangeDebug fmt dst)) := by
  constructor <;> intro h <;> simp [Dvmn.Monitor.new, h]

/-- C6 witness: the source tests' inputs — the demo triple constructs
successfully, and destination [0.2,1.0] with nominal [0.1,0.7] fails with the
message embedding both Ranges. -/
theorem c6_monitor_new_witness :
    Dvmn.Monitor.new Dvmn.fmt0 ⟨0, 256⟩ ⟨0, 1⟩ ⟨1/5, 7/10⟩
      = Except.ok ⟨⟨0, 256⟩, ⟨0, 1⟩, ⟨1/5, 7/10⟩⟩ ∧
    Dvmn.Monitor.new Dvmn.fmt0 ⟨0, 256⟩ ⟨1/5, 1⟩ ⟨1/10, 7/10⟩
      = Except.error
        ("values nominal:=" ++ Dvmn.rangeDebug Dvmn.fmt0 ⟨1/10, 7/10⟩ ++
          " is not contained in values:=" ++
          Dvmn.rangeDebug Dvmn.fmt0 ⟨1/5, 1⟩) :=
  ⟨(c6_monitor_new Dvmn.fmt0 ⟨0, 256⟩ ⟨0, 1⟩ ⟨1/5, 7/10⟩).1
      (by norm_num [Dvmn.Range.contains]),
    (c6_monitor_new Dvmn.fmt0 ⟨0, 256⟩ ⟨1/5, 1⟩ ⟨1/10, 7/10⟩).2
      (by norm_num [Dvmn.Range.contains])⟩

/-- C7: `Range::new(min, max)` succeeds exactly when `min ≤ max`, returning
the bounds unchanged; when `min > max` it fails with exactly the message
"invalid range: min:=<min>, max:=<max>, min <= max is false!" with both
values substituted (through the scalar renderer `fmt`). -/
theorem c7_range_new (fmt : ℚ → String) (mn mx : ℚ) :
    (mn ≤ mx → Dvmn.Range.new fmt mn mx = Except.ok ⟨mn, mx⟩) ∧
    (mx < mn → Dvmn.Range.new fmt mn mx = Except.error
      ("invalid range: min:=" ++ fmt mn ++ ", max:=" ++ fmt mx ++
        ", min <= max is false!")) := by
  constructor
  · intro h
    simp [Dvmn.Range.new, h]
  · intro h
    simp [Dvmn.Range.new, not_le.mpr h]

/-- C7 witness: the source tests' inputs — (0.5, 0.6) round-trips, and
(0.2, 0.1) fails with the exact message. -/
theorem c7_range_new_witness :
    Dvmn.Range.new Dvmn.fmt0 (1/2) (3/5) = Except.ok ⟨1/2, 3/5⟩ ∧
    Dvmn.Range.new Dvmn.fmt0 (1/5) (1/10) = Except.error
      ("invalid range: min:=" ++ Dvmn.fmt0 (1/5) ++ ", max:=" ++
        Dvmn.fmt0 (1/10) ++ ", min <= max is false!") :=
  ⟨(c7_range_new Dvmn.fmt0 (1/2) (3/5)).1 (by norm_num),
    (c7_range_new Dvmn.fmt0 (1/5) (1/10)).2 (by norm_num)⟩

/-- C8: `a.contains(b)` is true iff `a.min ≤ b.min ∧ b.max ≤ a.max` (equal
bounds count as contained), and contains is reflexive. -/
theorem c8_contains_iff (a b : Dvmn.Range) :
    (Dvmn.Range.contains a b = true ↔ a.min ≤ b.min ∧ b.max ≤ a.max) ∧
    Dvmn.Range.contains a a = true := by
  constructor
  · simp [Dvmn.Range.contains]
  · simp [Dvmn.Range.contains]

/-- C8 witness: the containment test cases from the source — [0,1] contains
[0.1,0.9], and a Range contains itself. -/
theorem c8_contains_witness :
    Dvmn.Range.contains ⟨0, 1⟩ ⟨1/10, 9/10⟩ = true ∧
    Dvmn.Range.contains ⟨1/10, 9/10⟩ ⟨1/10, 9/10⟩ = true :=
  ⟨(c8_contains_iff ⟨0, 1⟩ ⟨1/10, 9/10⟩).1.mpr ⟨by norm_num, by norm_num⟩,
    (c8_contains_iff ⟨1/10, 9/10⟩ ⟨1/10, 9/10⟩).2⟩

/-- C9: `validate` is a pure function of the Monitor's Ranges and the sample
values: it leaves the Monitor unchanged (the post-state equals the
pre-state), and two calls with equal current and previous values — even at
different timestamps — return equal States. -/
theorem c9_validate_pure (m : Dvmn.Monitor) (c p c2 p2 : Dvmn.Sample)
    (hc : c.value = c2.value) (hp : p.value = p2.value) :
    (Dvmn.Monitor.validate m c p).1 = m ∧
    (Dvmn.Monitor.validate m c p).2 = (Dvmn.Monitor.validate m c2 p2).2 := by
  refine ⟨rfl, ?_⟩
  simp [Dvmn.Monitor.validate, hc]

/-- C9 witness: same sample values 128/128 at distinct timestamps give the
same State and leave the demo Monitor unchanged. -/
theorem c9_validate_pure_witness :
    (Dvmn.Monitor.validate Dvmn.mDemo ⟨128, 0⟩ ⟨128, 1⟩).1 = Dvmn.mDemo ∧
    (Dvmn.Monitor.validate Dvmn.mDemo ⟨128, 0⟩ ⟨128, 1⟩).2
      = (Dvmn.Monitor.validate Dvmn.mDemo ⟨128, 7⟩ ⟨128, 9⟩).2 :=
  c9_validate_pure Dvmn.mDemo ⟨128, 0⟩ ⟨128, 1⟩ ⟨128, 7⟩ ⟨128, 9⟩ rfl rfl

/-- C10: `Sample::new` always succeeds; the value field is exactly the usize
input cast to the scalar type, hence non-negative and integer-valued. -/
theorem c10_sample_new (x t : Nat) :
    (Dvmn.Sample.new x t).value = (x : ℚ) ∧
    0 ≤ (Dvmn.Sample.new x t).value ∧
    ∃ n : Nat, (Dvmn.Sample.new x t).value = (n : ℚ) :=
  ⟨rfl, Nat.cast_nonneg x, ⟨x, rfl⟩⟩

end Dvmn
